import Mathlib

/-!
Verification development for the rustOwnershipMoves repository.

The repository is a single `main.rs` whose body illustrates Rust's ownership,
move, copy and reference-counting semantics.  The specification (spec.md §4)
describes an abstract "ownership simulator" over operations
`bind`, `move_out`, `copy`, `read`, `share`, `drop`; that simulator is not
implemented under `src/`, so it is modelled here from the spec's words.
The concrete vector / `Option` / assignment examples are translated from
`src/src/main.rs` directly.
-/

set_option maxHeartbeats 1000000

namespace RustOwnershipMoves

/-! ## Values and errors of the ownership simulator -/

/-- Values manipulated by the examples in `src/src/main.rs`: heap strings
(`String`), sequences of strings (`Vec<String>`), and machine integers
(`i32`, modelled as `Int`). -/
inductive Value where
  | str (s : String) : Value
  | strSeq (ss : List String) : Value
  | int (n : Int) : Value
  deriving DecidableEq, Repr

/-- Copyable kinds.  Mirroring the source's "Copy Types" section: machine
integers are `Copy`; `String` and `Vec<String>` own heap buffers and are not. -/
def Value.copyable : Value → Bool
  | .int _ => true
  | .str _ => false
  | .strSeq _ => false

/-- Modelled from the spec: §7 names exactly two error kinds for the
ownership simulator, `UseAfterMoveError` and `RedefinitionError`. -/
inductive OwnError where
  | UseAfterMoveError : OwnError
  | RedefinitionError : OwnError
  deriving DecidableEq, Repr

/-- A binding is either live (holding a value) or dead: its value was moved
away and the binding has not been reassigned since. -/
inductive BindingState where
  | live (v : Value) : BindingState
  | dead : BindingState
  deriving DecidableEq, Repr

/-- Association-list lookup for bindings; the most recent binding of a name
shadows older ones. -/
def lookupBinding : List (String × BindingState) → String → Option BindingState
  | [], _ => none
  | (m, b) :: rest, n => if n = m then some b else lookupBinding rest n

/-- State of the ownership simulator: the bindings in scope, and a log of the
values dropped so far (newest first).  The drop log records the source
comments' observations such as "value Govinda dropped here". -/
structure SimState where
  bindings : List (String × BindingState)
  droppedLog : List Value
  deriving DecidableEq, Repr

/-- The empty simulator state. -/
def SimState.empty : SimState := ⟨[], []⟩

def SimState.lookup (st : SimState) (n : String) : Option BindingState :=
  lookupBinding st.bindings n

/-- Record a binding for `n`, shadowing any previous binding of `n`. -/
def SimState.set (st : SimState) (n : String) (b : BindingState) : SimState :=
  { st with bindings := (n, b) :: st.bindings }

/-! ## Operations of the ownership simulator (modelled from the spec, §4) -/

/-- Modelled from the spec: "`read(name)`: fails with `UseAfterMoveError` if
`name` is dead."  Reading an unbound name is likewise a use of a value the
model does not hold, reported with the same error. -/
def read (st : SimState) (n : String) : Except OwnError Value :=
  match st.lookup n with
  | some (.live v) => .ok v
  | _ => .error .UseAfterMoveError

/-- Modelled from the spec: "`bind(name, value)`: introduces a new live
binding; fails with `RedefinitionError` if not previously dropped in the same
scope and the language model forbids shadowing (model-dependent; choose one
and document it)."  The model choice is kept as the explicit parameter
`allowShadowing`: with `allowShadowing = false` rebinding a live name fails
with `RedefinitionError`; with `allowShadowing = true` it shadows. -/
def bind (allowShadowing : Bool) (st : SimState) (n : String) (v : Value) :
    Except OwnError SimState :=
  match st.lookup n with
  | some (.live _) =>
      if allowShadowing then .ok (st.set n (.live v)) else .error .RedefinitionError
  | _ => .ok (st.set n (.live v))

/-- Modelled from the spec: "`move_out(name)`: transfers validity from `name`
to a new binding; marks `name` dead; fails with `UseAfterMoveError` if `name`
is already dead." -/
def move_out (st : SimState) (src dst : String) : Except OwnError SimState :=
  match st.lookup src with
  | some (.live v) => .ok ((st.set src .dead).set dst (.live v))
  | _ => .error .UseAfterMoveError

/-- Modelled from the spec: "`copy(name)` (only for designated copyable
kinds): produces a new binding with an independent copy; source remains
live."  For a non-copyable kind the operation behaves as the source's Rust
assignment does: it moves, leaving the source dead. -/
def copy (st : SimState) (src dst : String) : Except OwnError SimState :=
  match st.lookup src with
  | some (.live v) =>
      if v.copyable then .ok (st.set dst (.live v))
      else .ok ((st.set src .dead).set dst (.live v))
  | _ => .error .UseAfterMoveError

/-- Assignment to an already-declared binding, translated from the source's
"More Operations That Move" section (`src/src/main.rs` lines 42-51): moving a
value into an initialized binding first drops the binding's prior value; if
the binding's value was moved away earlier, nothing is dropped. -/
def assign (st : SimState) (n : String) (v : Value) : SimState :=
  match st.lookup n with
  | some (.live old) =>
      { bindings := (n, .live v) :: st.bindings, droppedLog := old :: st.droppedLog }
  | _ => st.set n (.live v)

/-- Operations of the simulator, for running whole sequences. -/
inductive Op where
  | bindOp (n : String) (v : Value) : Op
  | moveOp (src dst : String) : Op
  | copyOp (src dst : String) : Op
  | readOp (n : String) : Op
  | assignOp (n : String) (v : Value) : Op
  deriving DecidableEq, Repr

/-- One step of the simulator.  A failing step produces an error and no
successor state. -/
def step (allowShadowing : Bool) (st : SimState) : Op → Except OwnError SimState
  | .bindOp n v => bind allowShadowing st n v
  | .moveOp src dst => move_out st src dst
  | .copyOp src dst => copy st src dst
  | .readOp n => (read st n).map fun _ => st
  | .assignOp n v => .ok (assign st n v)

/-- Run a sequence of operations.  The first error is terminal: it is
reported to the caller and no later operation executes. -/
def run (allowShadowing : Bool) (st : SimState) : List Op → Except OwnError SimState
  | [] => .ok st
  | op :: rest =>
      match step allowShadowing st op with
      | .ok st' => run allowShadowing st' rest
      | .error e => .error e

/-! ## Reference counting (modelled from the spec, §4 `share`/`drop`) -/

/-- Modelled from the spec: state of one reference-counted value.  `count` is
the logical reference count (kept as an integer so that non-negativity is a
real statement), `handles` the names of the live handles, and `released`
whether the underlying value has been released. -/
structure RcState where
  count : Int
  handles : List String
  released : Bool
  deriving DecidableEq, Repr

/-- Creating the reference-counted value (Rust's `Rc::new`): one live handle,
count 1, not released. -/
def rcNew (n : String) : RcState := ⟨1, [n], false⟩

/-- Modelled from the spec: "`share(name)`: produces a reference-counted
handle; increments a logical count."  Sharing through a handle that is not
live leaves the state unchanged. -/
def share (st : RcState) (src newHandle : String) : RcState :=
  if src ∈ st.handles then
    { count := st.count + 1, handles := newHandle :: st.handles, released := st.released }
  else st

/-- Modelled from the spec: "`drop(handle)` decrements it; the underlying
value is conceptually freed only when the count reaches zero."  Dropping a
handle that is not live leaves the state unchanged. -/
def dropHandle (st : RcState) (n : String) : RcState :=
  if n ∈ st.handles then
    { count := st.count - 1, handles := st.handles.erase n,
      released := decide (st.count - 1 = 0) }
  else st

/-- Operations on one reference-counted value. -/
inductive RcOp where
  | shareOp (src newHandle : String) : RcOp
  | dropOp (h : String) : RcOp
  deriving DecidableEq, Repr

def rcStep (st : RcState) : RcOp → RcState
  | .shareOp src newHandle => share st src newHandle
  | .dropOp h => dropHandle st h

def rcRun (st : RcState) : List RcOp → RcState
  | [] => st
  | op :: rest => rcRun (rcStep st op) rest

/-- The reference-counting invariant of spec §8: the count equals the number
of live handles (hence is never negative), and the value is released exactly
when the count is zero. -/
def rcInv (st : RcState) : Prop :=
  st.count = st.handles.length ∧ (st.released = true ↔ st.count = 0)

/-! ## Observable output of `main` (`src/src/main.rs`)

The print statements appearing in `main`, in source order, with the values
the surrounding narrative assigns them. -/

/-- The greeting printed by line 2 of `src/src/main.rs`. -/
def greeting : String := "Hello, world!"

/-- The vector consumed by the `for mut s in v` loop (lines 144-152). -/
def consumedVec : List String := ["liberte", "egalite", "fraternity"]

/-- Lines printed by the consuming loop: each element gets "!" appended and
is printed. -/
def consumedLoopLines : List String := consumedVec.map fun s => s ++ "!"

/-- The `Label` struct of the "Copy Types" section (line 191 and, with
`derive(Copy, Clone)`, line 216). -/
structure Label where
  number : Nat
  deriving DecidableEq, Repr

/-- Line printed by `fn print(l: Label)` (line 193). -/
def printLabel (l : Label) : String := "STAMP: " ++ toString l.number

/-- Line printed after the call to `print` (line 196). -/
def labelNumberLine (l : Label) : String := "My label number is: " ++ toString l.number

/-- The string placed behind the `Rc` pointers (line 248). -/
def rcString : String := "shirataki"

/-- Line printed through the third `Rc` handle `u` (line 258). -/
def chewyLine (s : String) : String :=
  s ++ " are quite chewy, almost bouncy, but lack flavour"

/-- All console lines produced by the print statements of `main`, in source
order. -/
def mainOutput : List String :=
  [greeting] ++ consumedLoopLines ++
    [printLabel ⟨3⟩, labelNumberLine ⟨3⟩, chewyLine rcString]

/-! ## `Option::take` versus `mem::replace` (`src/src/main.rs` lines 156-175) -/

/-- The `Person` struct of the `Option<String>` example (line 157). -/
structure Person where
  name : Option String
  birth : Int
  deriving DecidableEq, Repr

/-- Rust's `Option::take` on a field, modelled by value passing: given the
field's contents, return the value taken out together with the contents left
behind.  `take` pulls the `Some` out and leaves `None`. -/
def optionTake (o : Option String) : Option String × Option String :=
  match o with
  | some x => (some x, none)
  | none => (none, none)

/-- Rust's `std::mem::replace(&mut dest, src)`, modelled by value passing:
returns the old contents and leaves `src` behind. -/
def memReplace (dest src : Option String) : Option String × Option String :=
  (dest, src)

/-- `composers[0].name.take()` at the struct level: the value taken out, and
the struct afterwards. -/
def takeName (p : Person) : Option String × Person :=
  ((optionTake p.name).1, { p with name := (optionTake p.name).2 })

/-- `std::mem::replace(&mut composers[0].name, None)` at the struct level. -/
def replaceNameWithNone (p : Person) : Option String × Person :=
  ((memReplace p.name none).1, { p with name := (memReplace p.name none).2 })

/-- The single `Person` pushed onto `composers` (line 160). -/
def palestrina : Person := { name := some "Palestrina", birth := 1525 }

/-! ## Moving out of indexed content (`src/src/main.rs` lines 119-140) -/

/-- The vector built by `for i in 101 .. 106 \x7b v.push(i.to_string()) \x7d`. -/
def buildV : List String := (List.range' 101 5).map toString

/-- Rust's `Vec::pop`: removes and returns the last element (`none` on an
empty vector). -/
def vecPop (v : List String) : Option String × List String :=
  (v.getLast?, v.dropLast)

/-- Rust's `Vec::swap_remove(i)`: returns element `i` and moves the last
element into its spot (out-of-bounds modelled as `none`, vector unchanged). -/
def swapRemove (v : List String) (i : Nat) : Option String × List String :=
  match v[i]?, v.getLast? with
  | some x, some last => (some x, (v.set i last).dropLast)
  | _, _ => (none, v)

/-- `std::mem::replace(&mut v[i], x)`: returns the old element at `i` and
stores `x` there (out-of-bounds modelled as `none`, vector unchanged). -/
def replaceAt (v : List String) (i : Nat) (x : String) : Option String × List String :=
  match v[i]? with
  | some old => (some old, v.set i x)
  | none => (none, v)

/-! ## Helper lemmas -/

theorem lookupBinding_cons (m : String) (b : BindingState)
    (rest : List (String × BindingState)) (n : String) :
    lookupBinding ((m, b) :: rest) n = if n = m then some b else lookupBinding rest n :=
  rfl

theorem SimState.lookup_set (st : SimState) (n m : String) (b : BindingState) :
    (st.set n b).lookup m = if m = n then some b else st.lookup m :=
  rfl

/-! ## Theorems for the claims -/

/-- C9: starting from the vector of the strings "101" through "105",
`pop` returns "105", then `swap_remove(1)` returns "102", then
`mem::replace(&mut v[2], "substitute")` returns "103", leaving the vector
equal to `["101", "104", "substitute"]` (fully populated at every step,
since the model is a plain list). -/
theorem vector_move_out_scenario :
    buildV = ["101", "102", "103", "104", "105"] ∧
    (vecPop buildV).1 = some "105" ∧
    (swapRemove (vecPop buildV).2 1).1 = some "102" ∧
    (replaceAt (swapRemove (vecPop buildV).2 1).2 2 "substitute").1 = some "103" ∧
    (replaceAt (swapRemove (vecPop buildV).2 1).2 2 "substitute").2 =
      ["101", "104", "substitute"] :=
  ⟨rfl, rfl, rfl, rfl, rfl⟩

/-- C8: on an `Option<String>` struct field, `take()` has exactly the effect
of `mem::replace(&mut field, None)`: both return the original contents and
leave `None` behind; in particular on the `Person` holding
`Some("Palestrina")`. -/
theorem take_eq_replace :
    (∀ p : Person, takeName p = replaceNameWithNone p) ∧
    (∀ p : Person, (takeName p).1 = p.name ∧ ((takeName p).2).name = none) ∧
    takeName palestrina = (some "Palestrina", { name := none, birth := 1525 }) := by
  refine ⟨?_, ?_, rfl⟩
  · intro p
    obtain ⟨n, b⟩ := p
    cases n <;> rfl
  · intro p
    obtain ⟨n, b⟩ := p
    cases n <;> exact ⟨rfl, rfl⟩

/-- C5 counterexample: the print statements of `main` produce more than the
single fixed greeting line, so the program's output is not just the
greeting. -/
theorem mainOutput_not_single_greeting : mainOutput ≠ [greeting] := by
  decide

/-- C5 (amended): the print statements of `main` produce a fixed sequence of
seven lines, the first of which is the greeting "Hello, world!"; no other
output is modelled. -/
theorem mainOutput_fixed_lines :
    mainOutput = ["Hello, world!", "liberte!", "egalite!", "fraternity!",
      "STAMP: 3", "My label number is: 3",
      "shirataki are quite chewy, almost bouncy, but lack flavour"] ∧
    mainOutput.head? = some greeting :=
  ⟨rfl, rfl⟩

/-- C4: sharing `s` twice into `t` and `u` gives count 3; dropping `t`
leaves count 2; dropping `s` and `u` as well leaves count 0 and the value
released. -/
theorem rc_scenario :
    (rcRun (rcNew "s") [RcOp.shareOp "s" "t", RcOp.shareOp "s" "u"]).count = 3 ∧
    (rcRun (rcNew "s")
      [RcOp.shareOp "s" "t", RcOp.shareOp "s" "u", RcOp.dropOp "t"]).count = 2 ∧
    (rcRun (rcNew "s") [RcOp.shareOp "s" "t", RcOp.shareOp "s" "u", RcOp.dropOp "t",
      RcOp.dropOp "s", RcOp.dropOp "u"]).count = 0 ∧
    (rcRun (rcNew "s") [RcOp.shareOp "s" "t", RcOp.shareOp "s" "u", RcOp.dropOp "t",
      RcOp.dropOp "s", RcOp.dropOp "u"]).released = true := by
  refine ⟨by decide, by decide, by decide, by decide⟩

/-- C1: `move_out` marks the source dead; reading any dead binding (moved
out and not reassigned since) fails with `UseAfterMoveError`; and in the
concrete scenario, after binding `s` to ["udon","ramen","soba"] and moving
it into `t`, `read s` fails with `UseAfterMoveError` while `read t` returns
["udon","ramen","soba"]. -/
theorem read_after_move_fails :
    (∀ (st : SimState) (src dst : String) (st' : SimState),
      move_out st src dst = .ok st' → src ≠ dst → st'.lookup src = some .dead) ∧
    (∀ (st : SimState) (n : String),
      st.lookup n = some .dead → read st n = .error .UseAfterMoveError) ∧
    (∃ st1 st2 : SimState,
      bind false SimState.empty "s" (.strSeq ["udon", "ramen", "soba"]) = .ok st1 ∧
      move_out st1 "s" "t" = .ok st2 ∧
      read st2 "s" = .error .UseAfterMoveError ∧
      read st2 "t" = .ok (.strSeq ["udon", "ramen", "soba"])) := by
  refine ⟨?_, ?_, ?_⟩
  · intro st src dst st' h hne
    unfold move_out at h
    cases hl : st.lookup src with
    | none => rw [hl] at h; exact absurd h (by simp)
    | some b =>
        cases b with
        | dead => rw [hl] at h; exact absurd h (by simp)
        | live v =>
            rw [hl] at h
            have hst : (st.set src .dead).set dst (.live v) = st' := by
              exact Except.ok.inj h
            rw [← hst]
            simp [SimState.lookup_set, hne]
  · intro st n h
    unfold read
    rw [h]
  · refine ⟨⟨[("s", .live (.strSeq ["udon", "ramen", "soba"]))], []⟩,
      ⟨[("t", .live (.strSeq ["udon", "ramen", "soba"])), ("s", .dead),
        ("s", .live (.strSeq ["udon", "ramen", "soba"]))], []⟩, rfl, rfl, rfl, rfl⟩

/-- Witness for C1 at a concrete input: reading the dead binding `s` fails
with `UseAfterMoveError`. -/
theorem read_after_move_fails_witness :
    read ⟨[("s", BindingState.dead)], []⟩ "s" = .error .UseAfterMoveError :=
  read_after_move_fails.2.1 ⟨[("s", BindingState.dead)], []⟩ "s" rfl

/-- C2: for a copyable value, `copy` succeeds, the source stays live and
readable with its original value, the copy reads equal to it, and neither
assigning over the copy nor moving the copy away disturbs the source. -/
theorem copy_leaves_source_live :
    ∀ (st : SimState) (src dst : String) (v : Value),
      src ≠ dst → st.lookup src = some (.live v) → v.copyable = true →
      ∃ st', copy st src dst = .ok st' ∧
        read st' src = .ok v ∧ read st' dst = .ok v ∧
        (∀ w : Value, read (assign st' dst w) src = .ok v) ∧
        (∀ dst2 : String, dst2 ≠ src → ∀ st'' : SimState,
          move_out st' dst dst2 = .ok st'' → read st'' src = .ok v) := by
  intro st src dst v hne hl hcopy
  refine ⟨st.set dst (.live v), ?_, ?_, ?_, ?_, ?_⟩
  · simp [copy, hl, hcopy]
  · simp [read, SimState.lookup_set, hne, hl]
  · simp [read, SimState.lookup_set, hl]
  · intro w
    have hd : (st.set dst (.live v)).lookup dst = some (.live v) := by
      simp [SimState.lookup_set]
    simp [assign, hd, read, SimState.lookup, lookupBinding, SimState.set, hne, hl]
    simp [SimState.lookup, SimState.set] at hl
    simp [hl]
  · intro dst2 hne2 st'' h
    have hd : (st.set dst (.live v)).lookup dst = some (.live v) := by
      simp [SimState.lookup_set]
    unfold move_out at h
    rw [hd] at h
    have hst : ((st.set dst (.live v)).set dst .dead).set dst2 (.live v) = st'' :=
      Except.ok.inj h
    rw [← hst]
    have hne2' : src ≠ dst2 := fun hh => hne2 hh.symm
    simp [read, SimState.lookup_set, hne, hne2', hl]

/-- Witness for C2 at a concrete input: copying the `i32` value 36 from
`num1` into `num2` leaves `num1` live and readable with value 36. -/
theorem copy_leaves_source_live_witness :
    ("num1" : String) ≠ "num2" ∧
    (∃ st', copy ⟨[("num1", BindingState.live (Value.int 36))], []⟩ "num1" "num2" =
        .ok st' ∧ read st' "num1" = .ok (Value.int 36)) := by
  refine ⟨by decide, ?_⟩
  obtain ⟨st', h1, h2, -⟩ :=
    copy_leaves_source_live ⟨[("num1", BindingState.live (Value.int 36))], []⟩
      "num1" "num2" (Value.int 36) (by decide) rfl rfl
  exact ⟨st', h1, h2⟩

/-- C6: `bind` introduces a new live binding when the name is absent or was
previously dropped/moved; with shadowing forbidden (the documented model
choice `allowShadowing = false`), rebinding a live name fails with
`RedefinitionError`; with shadowing allowed it shadows. -/
theorem bind_semantics :
    (∀ (st : SimState) (n : String) (v w : Value),
      st.lookup n = some (.live w) → bind false st n v = .error .RedefinitionError) ∧
    (∀ (sh : Bool) (st : SimState) (n : String) (v : Value),
      st.lookup n = none ∨ st.lookup n = some .dead →
      ∃ st', bind sh st n v = .ok st' ∧ st'.lookup n = some (.live v) ∧
        read st' n = .ok v) ∧
    (∀ (st : SimState) (n : String) (v w : Value),
      st.lookup n = some (.live w) →
      ∃ st', bind true st n v = .ok st' ∧ st'.lookup n = some (.live v)) := by
  refine ⟨?_, ?_, ?_⟩
  · intro st n v w h
    simp [bind, h]
  · intro sh st n v h
    refine ⟨st.set n (.live v), ?_, ?_, ?_⟩
    · rcases h with h | h <;> simp [bind, h]
    · simp [SimState.lookup_set]
    · simp [read, SimState.lookup_set]
  · intro st n v w h
    exact ⟨st.set n (.live v), by simp [bind, h], by simp [SimState.lookup_set]⟩

/-- Witness for C6 at concrete inputs: rebinding the live `x` with shadowing
forbidden fails with `RedefinitionError`, and binding a fresh name
succeeds. -/
theorem bind_semantics_witness :
    bind false ⟨[("x", BindingState.live (Value.int 1))], []⟩ "x" (Value.int 2) =
      .error .RedefinitionError ∧
    (∃ st', bind false SimState.empty "y" (Value.int 2) = .ok st' ∧
      st'.lookup "y" = some (.live (Value.int 2)) ∧
      read st' "y" = .ok (Value.int 2)) :=
  ⟨bind_semantics.1 ⟨[("x", BindingState.live (Value.int 1))], []⟩ "x"
      (Value.int 2) (Value.int 1) rfl,
    bind_semantics.2.1 false SimState.empty "y" (Value.int 2) (Or.inl rfl)⟩

/-- C7: the simulator's errors are exactly the two kinds
`UseAfterMoveError` and `RedefinitionError` (which are distinct), and every
error is terminal: a failing step makes the whole run stop and report that
error to the caller, with no later operation executed and no state
produced. -/
theorem errors_two_kinds_terminal :
    (∀ e : OwnError, e = .UseAfterMoveError ∨ e = .RedefinitionError) ∧
    OwnError.UseAfterMoveError ≠ OwnError.RedefinitionError ∧
    (∀ (sh : Bool) (st : SimState) (op : Op) (rest : List Op) (e : OwnError),
      step sh st op = .error e → run sh st (op :: rest) = .error e) := by
  refine ⟨?_, by decide, ?_⟩
  · intro e
    cases e
    · exact Or.inl rfl
    · exact Or.inr rfl
  · intro sh st op rest e h
    unfold run
    rw [h]

/-- Witness for C7 at a concrete input: a run whose first operation reads an
unbound name stops immediately with `UseAfterMoveError`, never executing the
rest. -/
theorem errors_two_kinds_terminal_witness :
    run false SimState.empty [Op.readOp "s", Op.bindOp "t" (Value.int 0)] =
      .error .UseAfterMoveError :=
  errors_two_kinds_terminal.2.2 false SimState.empty (Op.readOp "s")
    [Op.bindOp "t" (Value.int 0)] .UseAfterMoveError rfl

/-- C10: assigning to a binding that is live first drops the prior value
(it is appended to the drop log) and leaves the new value readable; but
assigning to a binding whose value was moved away drops nothing. -/
theorem assign_drop_semantics :
    (∀ (st : SimState) (n : String) (v old : Value),
      st.lookup n = some (.live old) →
      (assign st n v).droppedLog = old :: st.droppedLog ∧
      read (assign st n v) n = .ok v) ∧
    (∀ (st : SimState) (n : String) (v : Value),
      st.lookup n = some .dead →
      (assign st n v).droppedLog = st.droppedLog ∧ read (assign st n v) n = .ok v) := by
  constructor
  · intro st n v old h
    constructor
    · simp [assign, h]
    · have h' : lookupBinding st.bindings n = some (.live old) := h
      simp [assign, SimState.lookup, h', read, lookupBinding]
  · intro st n v h
    constructor
    · simp [assign, h, SimState.set]
    · simp [assign, h, read, SimState.lookup_set]

/-- Witness for C10 at the source's concrete inputs: assigning "Siddhartha"
over the live "Govinda" drops "Govinda"; after `t` has taken the string,
the same assignment drops nothing. -/
theorem assign_drop_semantics_witness :
    (assign ⟨[("s", BindingState.live (Value.str "Govinda"))], []⟩ "s"
      (Value.str "Siddhartha")).droppedLog = [Value.str "Govinda"] ∧
    (assign ⟨[("t", BindingState.live (Value.str "Govinda")),
      ("s", BindingState.dead)], []⟩ "s" (Value.str "Siddhartha")).droppedLog = [] :=
  ⟨(assign_drop_semantics.1 ⟨[("s", BindingState.live (Value.str "Govinda"))], []⟩
      "s" (Value.str "Siddhartha") (Value.str "Govinda") rfl).1,
    (assign_drop_semantics.2 ⟨[("t", BindingState.live (Value.str "Govinda")),
      ("s", BindingState.dead)], []⟩ "s" (Value.str "Siddhartha") rfl).1⟩

theorem rcInv_new (n : String) : rcInv (rcNew n) := by
  simp [rcInv, rcNew]

theorem rcInv_step (st : RcState) (op : RcOp) (h : rcInv st) : rcInv (rcStep st op) := by
  obtain ⟨hc, hr⟩ := h
  cases op with
  | shareOp src newHandle =>
      by_cases hmem : src ∈ st.handles
      · have hpos : 0 < st.handles.length := List.length_pos.mpr (List.ne_nil_of_mem hmem)
        constructor
        · simp only [rcStep, share, hmem, if_true, List.length_cons]
          omega
        · simp only [rcStep, share, hmem, if_true]
          rw [hr]
          omega
      · simpa [rcStep, share, hmem] using ⟨hc, hr⟩
  | dropOp hd =>
      by_cases hmem : hd ∈ st.handles
      · have hlen := List.length_erase_add_one hmem
        have hpos : 0 < st.handles.length := List.length_pos.mpr (List.ne_nil_of_mem hmem)
        constructor
        · simp only [rcStep, dropHandle, hmem, if_true]
          omega
        · simp only [rcStep, dropHandle, hmem, if_true]
          simp
      · simpa [rcStep, dropHandle, hmem] using ⟨hc, hr⟩

theorem rcInv_run (st : RcState) (ops : List RcOp) (h : rcInv st) :
    rcInv (rcRun st ops) := by
  induction ops generalizing st with
  | nil => exact h
  | cons op rest ih => exact ih (rcStep st op) (rcInv_step st op h)

/-- C3: at every state reachable from a freshly created reference-counted
value by any sequence of `share`/`drop` operations, the logical count equals
the number of live handles, is never negative, and the value is released
exactly when the count is zero. -/
theorem refcount_invariant (n : String) (ops : List RcOp) :
    (rcRun (rcNew n) ops).count = ((rcRun (rcNew n) ops).handles.length : Int) ∧
    0 ≤ (rcRun (rcNew n) ops).count ∧
    ((rcRun (rcNew n) ops).released = true ↔ (rcRun (rcNew n) ops).count = 0) := by
  obtain ⟨hc, hr⟩ := rcInv_run (rcNew n) ops (rcInv_new n)
  refine ⟨hc, ?_, hr⟩
  rw [hc]
  omega

end RustOwnershipMoves
